import Mathlib

/-!
Shallow embedding of `src/main.py` (english-prof-exam backend), covering the
grading pipeline: `grade_objective_questions`, `grade_writing_with_ai` /
`provide_local_writing_feedback`, `grade_speaking_with_ai` /
`provide_local_speaking_feedback`, `call_hf_text_model`, `send_email_report`
and the `submit_exam` endpoint.

Python strings are modelled as Lean `String`; machine-level details (HTTP,
asyncio) are modelled by explicit oracle values describing the outcome of each
external round trip.  Python exceptions that may escape a function are
modelled with `Except`; handlers in the source become `match`es on oracle
outcomes exactly where the source catches them.
-/

deriving instance DecidableEq for Except

namespace ExamBackend

/-- The characters stripped by Python `str.strip()` / split by `str.split()`
(ASCII whitespace: space, tab, newline, carriage return, vertical tab,
form feed). -/
def pyIsSpace (c : Char) : Bool :=
  c == ' ' || c == '\t' || c == '\n' || c == '\r' ||
    c == Char.ofNat 11 || c == Char.ofNat 12

/-- Python `str.strip()` on the character list of a string. -/
def pyStripChars (l : List Char) : List Char :=
  ((l.dropWhile pyIsSpace).reverse.dropWhile pyIsSpace).reverse

/-- Python `str.strip()`. -/
def pyStrip (s : String) : String :=
  String.mk (pyStripChars s.data)

/-- Python `str.lower()` (ASCII case folding, as used by the answer key). -/
def pyLower (s : String) : String :=
  String.mk (s.data.map Char.toLower)

/-- `charsStartWith n l` : `n` is a leading segment of `l`. -/
def charsStartWith : List Char → List Char → Bool
  | [], _ => true
  | _ :: _, [] => false
  | x :: xs, y :: ys => x == y && charsStartWith xs ys

/-- `charsContain n l` : `n` occurs contiguously somewhere in `l`. -/
def charsContain (needle : List Char) : List Char → Bool
  | [] => needle.isEmpty
  | c :: rest => charsStartWith needle (c :: rest) || charsContain needle rest

/-- Python `needle in hay` on strings (substring test). -/
def pyIn (needle hay : String) : Bool :=
  charsContain needle.data hay.data

/-- Python `str.split(sep)` for a one-character separator `sep`, on character
lists: every occurrence of the separator starts a new segment, empty
segments included. -/
def splitChars (p : Char → Bool) : List Char → List (List Char)
  | [] => [[]]
  | c :: cs =>
    if p c then [] :: splitChars p cs
    else
      match splitChars p cs with
      | [] => [[c]]
      | s :: ss => (c :: s) :: ss

/-! ## ObjectiveGrader (`grade_objective_questions`, main.py lines 225-283) -/

/-- The hard-coded answer key `correct_answers` (main.py lines 249-253). -/
def correct_answers : List (String × String) :=
  [("q1", "Smith"), ("q2", "555-1234"), ("q3", "Toothache"),
   ("q4", "Tuesday"), ("q5", "10:00"),
   ("r1", "B"), ("r2", "B"), ("r3", "B"), ("r4", "B"), ("r5", "B"),
   ("r6", "accessible"), ("r7", "weight"), ("r8", "injuries"),
   ("r9", "stress"), ("r10", "natural")]

/-- Python `correct_answers.get(q_key, "")`. -/
def getAnswer (k : String) : String :=
  (((correct_answers.find? (fun p => p.1 == k)).map (fun p => p.2)).getD "")

/-- One entry of `listening_results` / `reading_results`:
`{"answer": user_ans, "correct": is_correct}`. -/
structure QuestionResult where
  answer : String
  correct : Bool
deriving DecidableEq, Repr

/-- The per-section grading loop of `grade_objective_questions`
(main.py lines 259-266 and 269-276): for the `i`-th raw answer, the key is
`keyStem ++ toString (i+1)`, the user answer is `(ans or "").strip()`, and
correctness is a case-insensitive comparison against the answer key. -/
def gradeSection (keyStem : String) (idx : Nat) :
    List (Option String) → List (String × QuestionResult)
  | [] => []
  | ans :: rest =>
    let qKey := keyStem ++ toString (idx + 1)
    let userAns := pyStrip (ans.getD "")
    let isCorrect := pyLower userAns == pyLower (getAnswer qKey)
    (qKey, ⟨userAns, isCorrect⟩) :: gradeSection keyStem (idx + 1) rest

/-- The `objective_score` accumulation: `if is_correct: objective_score += 1`
folded over a section's results. -/
def sectionScore (rs : List (String × QuestionResult)) : Nat :=
  rs.foldl (fun acc r => if r.2.correct then acc + 1 else acc) 0

/-- Return value of `grade_objective_questions` (main.py lines 278-283). -/
structure ObjectiveResult where
  score : Nat
  total : Nat
  listening_results : List (String × QuestionResult)
  reading_results : List (String × QuestionResult)
deriving DecidableEq, Repr

/-- `grade_objective_questions` (main.py lines 225-283). -/
def grade_objective_questions (listening_answers reading_answers : List (Option String)) :
    ObjectiveResult :=
  let lr := gradeSection "q" 0 listening_answers
  let rr := gradeSection "r" 0 reading_answers
  { score := sectionScore lr + sectionScore rr
    total := 15
    listening_results := lr
    reading_results := rr }

/-- The correctness boolean recorded at position `i` of a section's results
(`false` when out of range). -/
def resultCorrect (rs : List (String × QuestionResult)) (i : Nat) : Bool :=
  ((rs.get? i).map (fun p => p.2.correct)).getD false

/-- The raw answer at position `i` of an answer sequence. -/
def answerAt (xs : List (Option String)) (i : Nat) : Option String :=
  (xs.get? i).getD none

/-! ## TextEvaluator (`grade_writing_with_ai` / `provide_local_writing_feedback`,
main.py lines 131-223) -/

/-- Whether the configured `HF_TOKEN` is truthy: `os.getenv` yields `none`
when the variable is unset, and Python `if not HF_TOKEN` also treats the
empty string as absent. -/
def hfTokenSet (tok : Option String) : Bool :=
  match tok with
  | none => false
  | some t => t != ""

/-- Python `len(writing_text.split())` (main.py lines 198-199): words are the
non-empty segments between whitespace runs. -/
def word_count (t : String) : Nat :=
  ((splitChars pyIsSpace t.data).filter (fun w => w != [])).length

/-- Python `len([s for s in writing_text.split('.') if s.strip()])`
(main.py lines 200-201): the source splits on `'.'` only. -/
def sentence_count (t : String) : Nat :=
  ((splitChars (fun c => c == '.') t.data).filter
      (fun s => pyStripChars s ≠ [])).length

/-- `grammar_score = min(9, 4 + word_count // 50)` (main.py line 204). -/
def grammar_score (t : String) : Nat := min 9 (4 + word_count t / 50)

/-- `vocabulary_score = min(9, 4 + word_count // 40)` (main.py line 205). -/
def vocabulary_score (t : String) : Nat := min 9 (4 + word_count t / 40)

/-- `coherence_score = min(9, 3 + sentence_count // 3)` (main.py line 206). -/
def coherence_score (t : String) : Nat := min 9 (3 + sentence_count t / 3)

/-- `task_score = min(9, 5 + (word_count // 30))` (main.py line 207). -/
def task_score (t : String) : Nat := min 9 (5 + word_count t / 30)

/-- Value, in tenths, of Python `f"{s / 4:.1f}"` for a natural `s`: `s / 4`
is exact in binary floating point, so the printed digit is the exact
round-half-to-even of `s / 4` at one decimal place. -/
def avgTenths (s : Nat) : Nat :=
  if s % 2 = 0 then s * 5 / 2
  else
    let b := s * 5 / 2
    if b % 2 = 0 then b else b + 1

/-- Python `f"{s / 4:.1f}"` for a natural `s` (the average of the four rubric
scores in `provide_local_writing_feedback`). -/
def fmtAvgQuarter (s : Nat) : String :=
  toString (avgTenths s / 10) ++ "." ++ toString (avgTenths s % 10)

/-- `provide_local_writing_feedback` (main.py lines 196-223). -/
def provide_local_writing_feedback (writing_text : String) : String :=
  let wc := word_count writing_text
  let sc := sentence_count writing_text
  let g := grammar_score writing_text
  let v := vocabulary_score writing_text
  let c := coherence_score writing_text
  let t := task_score writing_text
  "AUTOMATED WRITING ASSESSMENT (Local Analysis)\n" ++
  String.mk (List.replicate 42 '=') ++ "\n" ++
  "Word Count: " ++ toString wc ++ " words\n" ++
  "Sentence Count: " ++ toString sc ++ " sentences\n\n" ++
  "Scores:\n" ++
  "- Grammar: " ++ toString g ++ "/9\n" ++
  "- Vocabulary: " ++ toString v ++ "/9\n" ++
  "- Coherence: " ++ toString c ++ "/9\n" ++
  "- Task Achievement: " ++ toString t ++ "/9\n\n" ++
  "Average Score: " ++ fmtAvgQuarter (g + v + c + t) ++ "/9\n\n" ++
  "Note: This is an automated assessment based on word/sentence count.\n" ++
  "For detailed feedback, please contact your instructor."

/-- Outcome of one external HTTP attempt inside `grade_writing_with_ai`.
`exn` covers any exception raised inside the surrounding `try` (transport
error, JSON parse error, attribute error on an unexpected payload shape) —
the source replies `pass` to all of them.  `resp status extracted` is a
completed response: `extracted = some t` when the payload has the shape this
attempt reads a generated text from (approach 1: a non-empty JSON list whose
first element is a dict, `t = result[0].get("generated_text", "")`;
approach 2: a dict with a `"generated_text"` key), `none` when the payload
parses but has a different shape, so the attempt falls through without
returning. -/
inductive WriteAttempt where
  | exn
  | resp (status : Nat) (extracted : Option String)
deriving DecidableEq, Repr

/-- Oracle fixing the outcomes of the two external attempts of
`grade_writing_with_ai` (main.py lines 154-190). -/
structure WritingOracle where
  attempt1 : WriteAttempt
  attempt2 : WriteAttempt
deriving DecidableEq, Repr

/-- `grade_writing_with_ai` result, instrumented with the number of external
HTTP requests that were issued. -/
structure WritingResult where
  feedback : String
  netCalls : Nat
deriving DecidableEq, Repr

/-- Message returned on an empty writing sample (main.py line 135). -/
def noWritingMsg : String := "Error: No writing sample provided."

/-- Message returned when `HF_TOKEN` is not configured (main.py line 139). -/
def hfNotConfiguredMsg : String :=
  "Error grading writing: HF_TOKEN not configured. Set it in environment or exam_backend/.env"

/-- `grade_writing_with_ai` (main.py lines 131-193).  Approach 1 returns its
text only when the status is 200, a text was extracted, and
`if text and "Error" not in text` holds; approach 2 returns whenever the
status is 200 and the payload dict has a `"generated_text"` key; otherwise
the local heuristic is the final fallback (line 193). -/
def grade_writing_with_ai (tok : Option String) (orc : WritingOracle)
    (writing_text : Option String) : WritingResult :=
  match writing_text with
  | none => ⟨noWritingMsg, 0⟩
  | some w =>
    if w == "" || pyStrip w == "" then ⟨noWritingMsg, 0⟩
    else if !hfTokenSet tok then ⟨hfNotConfiguredMsg, 0⟩
    else
      let fallback : WritingResult := ⟨provide_local_writing_feedback w, 2⟩
      let try2 : WritingResult :=
        match orc.attempt2 with
        | WriteAttempt.exn => fallback
        | WriteAttempt.resp status extracted =>
          if status == 200 then
            match extracted with
            | some t => ⟨t, 2⟩
            | none => fallback
          else fallback
      match orc.attempt1 with
      | WriteAttempt.exn => try2
      | WriteAttempt.resp status extracted =>
        if status == 200 then
          match extracted with
          | some t => if t != "" && !pyIn "Error" t then ⟨t, 1⟩ else try2
          | none => try2
        else try2

/-! ## `call_hf_text_model` (main.py lines 74-129) -/

/-- Shape of the JSON payload of a 200 response in `call_hf_text_model`
(main.py lines 112-127).  `listFirstDict g t r`: a non-empty list whose first
element is a dict, with optional `"generated_text"` / `"text"` fields and
`r = str(first)`; `listFirstOther r`: a non-empty list whose first element is
not a dict (`r = str(first)`); `dictObj g t r`: a dict (`r = str(j)`); and
`otherJson r`: anything else, including the empty list (`r = str(j)`). -/
inductive HfJson where
  | listFirstDict (generatedText : Option String) (textField : Option String) (reprFirst : String)
  | listFirstOther (reprFirst : String)
  | dictObj (generatedText : Option String) (textField : Option String) (reprAll : String)
  | otherJson (reprAll : String)
deriving DecidableEq, Repr

/-- Outcome of the single HTTP round trip of `call_hf_text_model`.
`exnAtRequest = some e` : the request itself raised (caught at line 128).
Otherwise `status` is the HTTP status, `errBody` the stringified error
payload used in the generic non-200 branch, and `parse200` the result of
`resp.json()` on the 200 path (`Except.error e` : the parse raised, also
caught at line 128). -/
structure HfTextOutcome where
  exnAtRequest : Option String
  status : Nat
  errBody : String
  parse200 : Except String HfJson
deriving DecidableEq, Repr

/-- Python `first.get("generated_text") or first.get("text") or str(first)`
(main.py line 117): `or` skips `None` and the empty string. -/
def firstDictText (g t : Option String) (reprFirst : String) : String :=
  match g with
  | some s => if s != "" then s else
      match t with
      | some s2 => if s2 != "" then s2 else reprFirst
      | none => reprFirst
  | none =>
    match t with
    | some s2 => if s2 != "" then s2 else reprFirst
    | none => reprFirst

/-- Extraction of generated text from a parsed 200 payload
(main.py lines 113-127). -/
def extractHfText : HfJson → String
  | HfJson.listFirstDict g t r => firstDictText g t r
  | HfJson.listFirstOther r => r
  | HfJson.dictObj g t r =>
    match g with
    | some s => s
    | none =>
      match t with
      | some s2 => s2
      | none => r
  | HfJson.otherJson r => r

/-- `call_hf_text_model` with the default model `"gpt2"`
(main.py lines 74-129), instrumented with the number of HTTP requests
issued.  Every exception inside the `try` is caught at line 128 and turned
into an error string, so the function always returns normally. -/
def call_hf_text_model (tok : Option String) (o : HfTextOutcome)
    (_prompt : String) : String × Nat :=
  if !hfTokenSet tok then
    ("Error: HF_TOKEN not configured. Set HF_TOKEN in environment or exam_backend/.env", 0)
  else
    match o.exnAtRequest with
    | some e => ("Error calling Hugging Face model: " ++ e, 1)
    | none =>
      if o.status != 200 then
        if o.status == 404 then
          ("Error: Model \x27gpt2\x27 not found or not accessible with current HF token. " ++
            "Verify HF_TOKEN permissions. Status: " ++ toString o.status, 1)
        else if o.status == 503 then
          ("Model \x27gpt2\x27 is currently loading. Please try again in a moment.", 1)
        else
          ("Error from Hugging Face model (gpt2): " ++ toString o.status ++ " - " ++ o.errBody, 1)
      else
        match o.parse200 with
        | Except.error e => ("Error calling Hugging Face model: " ++ e, 1)
        | Except.ok j => (extractHfText j, 1)

/-! ## AudioEvaluator (`grade_speaking_with_ai` /
`provide_local_speaking_feedback`, main.py lines 402-475) -/

/-- `provide_local_speaking_feedback` (main.py lines 459-475). -/
def provide_local_speaking_feedback (audio_url : String) (error : Option String) : String :=
  let feedback :=
    "AUTOMATED SPEAKING ASSESSMENT (Audio Analysis Unavailable)\n" ++
    String.mk (List.replicate 57 '=') ++ "\n" ++
    "Audio Link: " ++ audio_url ++ "\n\n" ++
    "Assessment Status: Audio transcription service unavailable.\n\n" ++
    "For detailed feedback on your speaking:\n" ++
    "- Fluency\n" ++
    "- Pronunciation\n" ++
    "- Lexical Resource\n" ++
    "- Grammatical Range & Accuracy\n\n" ++
    "Please contact your instructor for manual assessment.\n\n"
  match error with
  | some e => feedback ++ "Technical Note: " ++ e
  | none => feedback

/-- Outcome of the audio download (main.py lines 411-418): either the GET
raised (`exn e`, caught at line 417) or a response with a status and raw
bytes arrived. -/
inductive FetchOutcome where
  | exn (msg : String)
  | resp (status : Nat) (content : List Nat)
deriving DecidableEq, Repr

/-- Outcome of the transcription request (main.py lines 426-434): `exn` is
any exception inside that `try` (request failure, or `resp.json()` raising on
the 200 path) — the source replies `pass`.  `resp status textField` is a
completed round trip with a parsed payload; `textField` is
`j.get("text") if isinstance(j, dict) else None`. -/
inductive TranscribeOutcome where
  | exn
  | resp (status : Nat) (textField : Option String)
deriving DecidableEq, Repr

/-- Oracle fixing the outcomes of the external round trips of
`grade_speaking_with_ai`: the audio fetch, the transcription request, and
the generative-text request made through `call_hf_text_model`. -/
structure SpeakingOracle where
  fetch : FetchOutcome
  transcribe : TranscribeOutcome
  gen : HfTextOutcome
deriving DecidableEq, Repr

/-- Result of `grade_speaking_with_ai`, instrumented with the number of
external HTTP requests issued.  `result = Except.error e` would mean an
exception escaping to the caller. -/
structure SpeakingResult where
  result : Except String String
  netCalls : Nat
deriving DecidableEq, Repr

/-- Terminal message for a blank audio reference (main.py line 407). -/
def unavailableMsg : String :=
  "SPEAKING ASSESSMENT UNAVAILABLE\nNo audio link provided. Please upload your speaking sample to a service like Vocaroo and provide the link."

/-- Early-return message for a non-200 audio download (main.py line 415). -/
def downloadErrMsg (audio_url : String) (status : Nat) : String :=
  "Error downloading audio from " ++ audio_url ++ ": HTTP " ++ toString status ++
    "\n\nPlease verify the audio link is correct and publicly accessible."

/-- Early-return message when the audio GET raises (main.py line 418). -/
def accessErrMsg (e : String) : String :=
  "Error accessing audio URL: " ++ e ++
    "\n\nPlease ensure the audio link is correct and publicly accessible."

/-- The speaking rubric prompt built around the transcript
(main.py lines 438-447). -/
def speakingPrompt (transcript : String) : String :=
  "You are an expert English language examiner. Grade this student\x27s speaking response:\n\n" ++
  "Transcribed Speech:\n" ++ transcript ++ "\n\n" ++
  "Evaluate based on these criteria and provide a score from 1-9 for each:\n" ++
  "1. Fluency\n2. Pronunciation\n3. Lexical Resource\n4. Grammatical Range & Accuracy\n\n" ++
  "Format your response as a structured feedback report with specific comments for each criterion."

/-- Python `if not audio_url or audio_url.strip() == ""` (main.py line 406). -/
def isBlankRef (x : Option String) : Bool :=
  match x with
  | none => true
  | some s => s == "" || pyStrip s == ""

/-- The `transcript` variable of `grade_speaking_with_ai` after the
transcription block (main.py lines 420-434): it stays `None` when no token
is configured, when the transcription request raises, or when its status is
not 200; otherwise it is the `"text"` field of the payload. -/
def transcriptOf (tok : Option String) (o : SpeakingOracle) : Option String :=
  if hfTokenSet tok then
    match o.transcribe with
    | TranscribeOutcome.exn => none
    | TranscribeOutcome.resp st2 textField =>
      if st2 == 200 then textField else none
  else none

/-- The body of the outer `try` of `grade_speaking_with_ai`
(main.py lines 409-453), for a non-blank URL.  An `Except.error` would be an
exception escaping this `try` into the handler at lines 455-456; every
failure in the body is in fact handled by an early `return`, a `pass`, or
inside `call_hf_text_model`, so the body only produces `Except.ok`. -/
def speakingBody (tok : Option String) (o : SpeakingOracle) (audio_url : String) :
    Except (String × Nat) (String × Nat) :=
  match o.fetch with
  | FetchOutcome.exn e => Except.ok (accessErrMsg e, 1)
  | FetchOutcome.resp status _content =>
    if status != 200 then Except.ok (downloadErrMsg audio_url status, 1)
    else
      let transcribeCalls := if hfTokenSet tok then 1 else 0
      match transcriptOf tok o with
      | some t =>
        if t != "" then
          let rc := call_hf_text_model tok o.gen (speakingPrompt t)
          if !pyIn "Error" rc.1 then
            Except.ok ("TRANSCRIPTION:\n" ++ t ++ "\n\nFEEDBACK:\n" ++ rc.1,
              1 + transcribeCalls + rc.2)
          else
            Except.ok (provide_local_speaking_feedback audio_url none,
              1 + transcribeCalls + rc.2)
        else Except.ok (provide_local_speaking_feedback audio_url none, 1 + transcribeCalls)
      | none => Except.ok (provide_local_speaking_feedback audio_url none, 1 + transcribeCalls)

/-- `grade_speaking_with_ai` (main.py lines 402-456): blank-reference early
return, then the `try` body with the catch-all handler of lines 455-456
turning any escaped exception into `provide_local_speaking_feedback`. -/
def grade_speaking_with_ai (tok : Option String) (o : SpeakingOracle)
    (audio_url : Option String) : SpeakingResult :=
  if isBlankRef audio_url then ⟨Except.ok unavailableMsg, 0⟩
  else
    let url := audio_url.getD ""
    match speakingBody tok o url with
    | Except.ok (s, n) => ⟨Except.ok s, n⟩
    | Except.error (e, n) => ⟨Except.ok (provide_local_speaking_feedback url (some e)), n⟩

/-! ## `send_email_report` and the `submit_exam` endpoint
(main.py lines 285-400 and 477-530) -/

/-- The `results` dict assembled by `submit_exam` (main.py lines 509-516). -/
structure SubmitResults where
  student_name : Option String
  student_email : Option String
  writing_feedback : String
  speaking_link : Option String
  speaking_feedback : String
  objective_results : ObjectiveResult
deriving DecidableEq, Repr

/-- `send_email_report` (main.py lines 285-400): the body only formats the
report and prints it to the console (the real SMTP code is commented out),
then unconditionally `return True` (line 400). -/
def send_email_report (_target_email : String) (_student_name _student_email : Option String)
    (_results : SubmitResults) : Bool :=
  true

/-- Success message of `submit_exam` (main.py line 522). -/
def emailSentMsg : String :=
  "Exam submission received, graded by AI, and detailed report sent to info@academy-uk.net."

/-- Failure message of `submit_exam` (main.py line 524). -/
def emailFailedMsg : String :=
  "Exam submission received and graded, but there was an error sending the email report."

/-- The `submit_exam` endpoint (main.py lines 477-530): grades writing,
speaking and the objective sections, assembles the `results` dict, calls
`send_email_report`, and picks the response message from its boolean.
An `Except.error` would be an exception escaping the endpoint. -/
def submit_exam (tok : Option String) (worc : WritingOracle) (sorc : SpeakingOracle)
    (student_name student_email : Option String)
    (q1 q2 q3 q4 q5 : Option String)
    (r1 r2 r3 r4 r5 r6 r7 r8 r9 r10 : Option String)
    (writing_answer speaking_link : Option String) :
    Except String (String × SubmitResults) :=
  let writing_feedback := (grade_writing_with_ai tok worc writing_answer).feedback
  match (grade_speaking_with_ai tok sorc speaking_link).result with
  | Except.error e => Except.error e
  | Except.ok speaking_feedback =>
    let listening_answers := [q1, q2, q3, q4, q5]
    let reading_answers := [r1, r2, r3, r4, r5, r6, r7, r8, r9, r10]
    let objective_results := grade_objective_questions listening_answers reading_answers
    let results : SubmitResults :=
      { student_name := student_name
        student_email := student_email
        writing_feedback := writing_feedback
        speaking_link := speaking_link
        speaking_feedback := speaking_feedback
        objective_results := objective_results }
    let email_sent := send_email_report "info@academy-uk.net" student_name student_email results
    let message := if email_sent then emailSentMsg else emailFailedMsg
    Except.ok (message, results)

/-! ## Definition modelled from the claim wording (for C7) -/

/-- Modelled from the spec: the sentence count as the claim words it —
"the number of non-empty segments obtained by splitting the text on
sentence-terminating punctuation (i.e. all of `.`, `!`, `?`)".  This is the
claimed behaviour, to be compared with `sentence_count` taken from the
source. -/
def claimedSentenceCount (t : String) : Nat :=
  ((splitChars (fun c => c == '.' || c == '!' || c == '?') t.data).filter
      (fun s => pyStripChars s ≠ [])).length

/-! ## Helper lemmas -/

/-- Shape of the `i`-th entry produced by the grading loop. -/
theorem gradeSection_get? (stem : String) :
    ∀ (answers : List (Option String)) (start i : Nat), i < answers.length →
      (gradeSection stem start answers).get? i =
        some (stem ++ toString (start + i + 1),
          { answer := pyStrip ((answerAt answers i).getD "")
            correct := pyLower (pyStrip ((answerAt answers i).getD "")) ==
                pyLower (getAnswer (stem ++ toString (start + i + 1))) }) := by
  intro answers
  induction answers with
  | nil => intro start i h; simp at h
  | cons a rest ih =>
    intro start i h
    cases i with
    | zero => simp [gradeSection, answerAt]
    | succ n =>
      have h' : n < rest.length := by simpa using Nat.lt_of_succ_lt_succ h
      have e : start + 1 + n = start + (n + 1) := by omega
      simp only [gradeSection, List.get?_cons_succ]
      rw [ih (start + 1) n h', e]
      simp [answerAt]

theorem gradeSection_length (stem : String) :
    ∀ (answers : List (Option String)) (start : Nat),
      (gradeSection stem start answers).length = answers.length := by
  intro answers
  induction answers with
  | nil => intro start; rfl
  | cons a rest ih => intro start; simp [gradeSection, ih]

theorem sectionScore_foldl (rs : List (String × QuestionResult)) :
    ∀ n : Nat,
      rs.foldl (fun acc r => if r.2.correct then acc + 1 else acc) n =
        n + rs.countP (fun r => r.2.correct) := by
  induction rs with
  | nil => intro n; simp
  | cons r rest ih =>
    intro n
    by_cases hc : r.2.correct
    · simp [List.foldl_cons, List.countP_cons, hc, ih]; omega
    · simp [List.foldl_cons, List.countP_cons, hc, ih]

/-- `sectionScore` counts exactly the `correct` booleans that are true. -/
theorem sectionScore_eq_countP (rs : List (String × QuestionResult)) :
    sectionScore rs = rs.countP (fun r => r.2.correct) := by
  simpa using sectionScore_foldl rs 0

/-! ## Claim theorems -/

/-- **C1.** For every position `i` of the listening (length 5) and reading
(length 10) answer sequences, `grade_objective_questions` marks question `i`
correct iff the submitted answer, whitespace-trimmed and lowered, equals the
lowered answer-key entry for that position; an absent (`none`) or empty
answer is always marked incorrect. -/
theorem objective_correct_iff
    (la ra : List (Option String)) (hl : la.length = 5) (hr : ra.length = 10) :
    (∀ i, i < 5 →
      ((resultCorrect (grade_objective_questions la ra).listening_results i = true ↔
          pyLower (pyStrip ((answerAt la i).getD "")) =
            pyLower (getAnswer ("q" ++ toString (i + 1)))) ∧
        ((answerAt la i = none ∨ pyStrip ((answerAt la i).getD "") = "") →
          resultCorrect (grade_objective_questions la ra).listening_results i = false))) ∧
    (∀ i, i < 10 →
      ((resultCorrect (grade_objective_questions la ra).reading_results i = true ↔
          pyLower (pyStrip ((answerAt ra i).getD "")) =
            pyLower (getAnswer ("r" ++ toString (i + 1)))) ∧
        ((answerAt ra i = none ∨ pyStrip ((answerAt ra i).getD "") = "") →
          resultCorrect (grade_objective_questions la ra).reading_results i = false))) := by
  have key : ∀ (stem : String) (xs : List (Option String)) (i : Nat), i < xs.length →
      resultCorrect (gradeSection stem 0 xs) i =
        (pyLower (pyStrip ((answerAt xs i).getD "")) ==
          pyLower (getAnswer (stem ++ toString (i + 1)))) := by
    intro stem xs i h
    unfold resultCorrect
    rw [gradeSection_get? stem xs 0 i h]
    simp
  have empty_ans : ∀ (xs : List (Option String)) (i : Nat),
      (answerAt xs i = none ∨ pyStrip ((answerAt xs i).getD "") = "") →
      pyStrip ((answerAt xs i).getD "") = "" := by
    intro xs i h
    rcases h with h | h
    · rw [h]; rfl
    · exact h
  constructor
  · intro i hi
    have hi' : i < la.length := by omega
    constructor
    · rw [show (grade_objective_questions la ra).listening_results =
          gradeSection "q" 0 la from rfl, key "q" la i hi']
      exact beq_iff_eq
    · intro habs
      rw [show (grade_objective_questions la ra).listening_results =
          gradeSection "q" 0 la from rfl, key "q" la i hi', empty_ans la i habs]
      interval_cases i <;> decide
  · intro i hi
    have hi' : i < ra.length := by omega
    constructor
    · rw [show (grade_objective_questions la ra).reading_results =
          gradeSection "r" 0 ra from rfl, key "r" ra i hi']
      exact beq_iff_eq
    · intro habs
      rw [show (grade_objective_questions la ra).reading_results =
          gradeSection "r" 0 ra from rfl, key "r" ra i hi', empty_ans ra i habs]
      interval_cases i <;> decide

/-- Sample listening answers used to instantiate hypotheses of the claim
theorems (mixed correct, trailing-space, absent and empty entries). -/
def la0 : List (Option String) :=
  [some "smith", some " 555-1234 ", none, some "", some "WRONG"]

/-- Sample reading answers used to instantiate hypotheses of the claim
theorems. -/
def ra0 : List (Option String) :=
  [some "b", some "B", none, some "b", some "b",
   some "accessible", some "x", some "", some "stress", some "natural"]

/-- **C1 witness**: the theorem applied to the sample answer lists at
position 0 of each section. -/
theorem objective_correct_iff_witness :
    ((resultCorrect (grade_objective_questions la0 ra0).listening_results 0 = true ↔
        pyLower (pyStrip ((answerAt la0 0).getD "")) =
          pyLower (getAnswer ("q" ++ toString (0 + 1)))) ∧
      ((answerAt la0 0 = none ∨ pyStrip ((answerAt la0 0).getD "") = "") →
        resultCorrect (grade_objective_questions la0 ra0).listening_results 0 = false)) ∧
    ((resultCorrect (grade_objective_questions la0 ra0).reading_results 2 = true ↔
        pyLower (pyStrip ((answerAt ra0 2).getD "")) =
          pyLower (getAnswer ("r" ++ toString (2 + 1)))) ∧
      ((answerAt ra0 2 = none ∨ pyStrip ((answerAt ra0 2).getD "") = "") →
        resultCorrect (grade_objective_questions la0 ra0).reading_results 2 = false)) :=
  ⟨(objective_correct_iff la0 ra0 rfl rfl).1 0 (by decide),
   (objective_correct_iff la0 ra0 rfl rfl).2 2 (by decide)⟩

/-- **C2.** For 5 listening and 10 reading answers, the aggregate score of
`grade_objective_questions` equals the number of per-question correctness
booleans that are true, the reported total is 15 — the number of answer-key
entries — and the score never exceeds the total. -/
theorem objective_score_invariant
    (la ra : List (Option String)) (hl : la.length = 5) (hr : ra.length = 10) :
    (grade_objective_questions la ra).score =
      ((grade_objective_questions la ra).listening_results ++
        (grade_objective_questions la ra).reading_results).countP
          (fun r => r.2.correct) ∧
    (grade_objective_questions la ra).total = 15 ∧
    correct_answers.length = 15 ∧
    (grade_objective_questions la ra).score ≤ (grade_objective_questions la ra).total := by
  have hscore : (grade_objective_questions la ra).score =
      sectionScore (gradeSection "q" 0 la) + sectionScore (gradeSection "r" 0 ra) := rfl
  refine ⟨?_, rfl, by decide, ?_⟩
  · rw [hscore, sectionScore_eq_countP, sectionScore_eq_countP]
    rw [show (grade_objective_questions la ra).listening_results =
        gradeSection "q" 0 la from rfl,
      show (grade_objective_questions la ra).reading_results =
        gradeSection "r" 0 ra from rfl,
      List.countP_append]
  · rw [hscore, sectionScore_eq_countP, sectionScore_eq_countP]
    have h1 := List.countP_le_length (l := gradeSection "q" 0 la)
      (p := fun r => r.2.correct)
    have h2 := List.countP_le_length (l := gradeSection "r" 0 ra)
      (p := fun r => r.2.correct)
    have l1 : (gradeSection "q" 0 la).length = 5 := by
      rw [gradeSection_length "q" la 0, hl]
    have l2 : (gradeSection "r" 0 ra).length = 10 := by
      rw [gradeSection_length "r" ra 0, hr]
    rw [l1] at h1
    rw [l2] at h2
    show _ ≤ 15
    omega

/-- **C2 witness**: the invariant at the sample answer lists. -/
theorem objective_score_invariant_witness :
    (grade_objective_questions la0 ra0).score =
      ((grade_objective_questions la0 ra0).listening_results ++
        (grade_objective_questions la0 ra0).reading_results).countP
          (fun r => r.2.correct) ∧
    (grade_objective_questions la0 ra0).total = 15 ∧
    correct_answers.length = 15 ∧
    (grade_objective_questions la0 ra0).score ≤ (grade_objective_questions la0 ra0).total :=
  objective_score_invariant la0 ra0 rfl rfl

/-- Clamping a heuristic score at 9 keeps it within `[1, 9]` whenever its
base constant is at least 1. -/
theorem min_nine_bounds (b x : Nat) (hb : 1 ≤ b) :
    1 ≤ min 9 (b + x) ∧ min 9 (b + x) ≤ 9 :=
  ⟨le_min (by omega) (by omega), min_le_left 9 (b + x)⟩

/-- **C6.** For every non-empty writing text, the four rubric scores of the
local heuristic are `min(9, base + count / divisor)` with per-criterion
constants, are deterministic functions of the word and sentence counts, and
lie within `[1, 9]`. -/
theorem local_writing_scores (t : String) (_ht : t ≠ "") :
    (grammar_score t = min 9 (4 + word_count t / 50) ∧
      vocabulary_score t = min 9 (4 + word_count t / 40) ∧
      coherence_score t = min 9 (3 + sentence_count t / 3) ∧
      task_score t = min 9 (5 + word_count t / 30)) ∧
    ((1 ≤ grammar_score t ∧ grammar_score t ≤ 9) ∧
      (1 ≤ vocabulary_score t ∧ vocabulary_score t ≤ 9) ∧
      (1 ≤ coherence_score t ∧ coherence_score t ≤ 9) ∧
      (1 ≤ task_score t ∧ task_score t ≤ 9)) ∧
    (∀ t1 t2 : String, word_count t1 = word_count t2 →
      sentence_count t1 = sentence_count t2 →
      grammar_score t1 = grammar_score t2 ∧
        vocabulary_score t1 = vocabulary_score t2 ∧
        coherence_score t1 = coherence_score t2 ∧
        task_score t1 = task_score t2) := by
  refine ⟨⟨rfl, rfl, rfl, rfl⟩, ?_, ?_⟩
  · exact ⟨min_nine_bounds 4 _ (by omega), min_nine_bounds 4 _ (by omega),
      min_nine_bounds 3 _ (by omega), min_nine_bounds 5 _ (by omega)⟩
  · intro t1 t2 hw hs
    exact ⟨by simp [grammar_score, hw], by simp [vocabulary_score, hw],
      by simp [coherence_score, hs], by simp [task_score, hw]⟩

/-- **C6 witness**: the scores of a concrete two-word, one-sentence text. -/
theorem local_writing_scores_witness :
    (grammar_score "Hello world." = min 9 (4 + word_count "Hello world." / 50) ∧
      vocabulary_score "Hello world." = min 9 (4 + word_count "Hello world." / 40) ∧
      coherence_score "Hello world." = min 9 (3 + sentence_count "Hello world." / 3) ∧
      task_score "Hello world." = min 9 (5 + word_count "Hello world." / 30)) ∧
    ((1 ≤ grammar_score "Hello world." ∧ grammar_score "Hello world." ≤ 9) ∧
      (1 ≤ vocabulary_score "Hello world." ∧ vocabulary_score "Hello world." ≤ 9) ∧
      (1 ≤ coherence_score "Hello world." ∧ coherence_score "Hello world." ≤ 9) ∧
      (1 ≤ task_score "Hello world." ∧ task_score "Hello world." ≤ 9)) ∧
    (∀ t1 t2 : String, word_count t1 = word_count t2 →
      sentence_count t1 = sentence_count t2 →
      grammar_score t1 = grammar_score t2 ∧
        vocabulary_score t1 = vocabulary_score t2 ∧
        coherence_score t1 = coherence_score t2 ∧
        task_score t1 = task_score t2) :=
  local_writing_scores "Hello world." (by decide)

/-- A string strips to nothing exactly when all of its characters are
whitespace. -/
theorem pyStripChars_eq_nil_iff (s : List Char) :
    pyStripChars s = [] ↔ ∀ c ∈ s, pyIsSpace c := by
  unfold pyStripChars
  rw [List.reverse_eq_nil_iff, List.dropWhile_eq_nil_iff]
  constructor
  · intro h c hc
    rcases (List.mem_append.mp
        (by rw [List.takeWhile_append_dropWhile (p := pyIsSpace)]; exact hc :
          c ∈ s.takeWhile pyIsSpace ++ s.dropWhile pyIsSpace)) with hm | hm
    · exact List.mem_takeWhile_imp hm
    · exact h c (List.mem_reverse.mpr hm)
  · intro h c hc
    exact h c ((List.dropWhile_sublist pyIsSpace).mem (List.mem_reverse.mp hc))

/-- **C7 counterexample.** On `"Hi! Bye?"` the code counts one sentence
(splitting on `'.'` only), while splitting on all of `'.'`, `'!'`, `'?'` —
as the claim states — yields two non-empty segments. -/
theorem sentence_count_counterexample :
    sentence_count "Hi! Bye?" ≠ claimedSentenceCount "Hi! Bye?" ∧
    sentence_count "Hi! Bye?" = 1 ∧ claimedSentenceCount "Hi! Bye?" = 2 := by
  decide

/-- **C7 (amended).** For every writing text, the sentence count used by the
local heuristic equals the number of segments obtained by splitting the text
on `'.'` alone that contain at least one non-whitespace character; `'!'` and
`'?'` do not terminate sentences. -/
theorem sentence_count_spec (t : String) :
    sentence_count t =
      (splitChars (fun c => c == '.') t.data).countP
        (fun seg => seg.any (fun c => !pyIsSpace c)) := by
  unfold sentence_count
  rw [List.countP_eq_length_filter]
  congr 1
  apply List.filter_congr
  intro seg _
  rw [Bool.eq_iff_iff]
  simp only [decide_eq_true_eq, List.any_eq_true, Bool.not_eq_true']
  constructor
  · intro h
    by_contra hall
    push_neg at hall
    exact h (pyStripChars_eq_nil_iff seg |>.mpr
      (fun c hc => by
        have := hall c hc
        simpa using this))
  · rintro ⟨c, hc, hns⟩ hnil
    have := (pyStripChars_eq_nil_iff seg).mp hnil c hc
    rw [this] at hns
    simp at hns

/-- A sample writing oracle on which both external attempts fail with an
exception. -/
def orc0 : WritingOracle := ⟨WriteAttempt.exn, WriteAttempt.exn⟩

/-- **C8.** For an absent, empty, or whitespace-only writing input,
`grade_writing_with_ai` returns the missing-input message and issues no
external request. -/
theorem writing_missing_input (tok : Option String) (orc : WritingOracle)
    (wt : Option String) (h : pyStrip (wt.getD "") = "") :
    grade_writing_with_ai tok orc wt = ⟨noWritingMsg, 0⟩ := by
  unfold grade_writing_with_ai
  cases wt with
  | none => rfl
  | some w =>
    have h' : (pyStrip w == "") = true := beq_iff_eq.mpr (by simpa using h)
    simp [h']

/-- **C8 witness**: a whitespace-only writing input. -/
theorem writing_missing_input_witness :
    grade_writing_with_ai none orc0 (some "   ") = ⟨noWritingMsg, 0⟩ :=
  writing_missing_input none orc0 (some "   ") (by decide)

/-- **C3 counterexample.** With `HF_TOKEN` absent and a non-empty writing
text, `grade_writing_with_ai` does not fall back to
`provide_local_writing_feedback`: it returns the fixed configuration-error
message instead. -/
theorem writing_no_token_counterexample :
    (grade_writing_with_ai none orc0 (some "Hello world.")).feedback ≠
      provide_local_writing_feedback "Hello world." ∧
    (grade_writing_with_ai none orc0 (some "Hello world.")).feedback =
      hfNotConfiguredMsg := by
  decide

/-- **C3 (amended).** For every non-empty writing text, when no
generative-text credential is configured, `grade_writing_with_ai` returns
the fixed configuration-error message without attempting any external call
and without raising; the local heuristic `provide_local_writing_feedback` is
reached only when the token is present and both external attempts fail. -/
theorem writing_no_token (tok : Option String) (orc : WritingOracle) (w : String)
    (htok : hfTokenSet tok = false) (hw : pyStrip w ≠ "") :
    grade_writing_with_ai tok orc (some w) = ⟨hfNotConfiguredMsg, 0⟩ ∧
    (∀ (tok2 : Option String) (orc2 : WritingOracle) (w2 : String),
      hfTokenSet tok2 = true → pyStrip w2 ≠ "" →
      orc2.attempt1 = WriteAttempt.exn → orc2.attempt2 = WriteAttempt.exn →
      grade_writing_with_ai tok2 orc2 (some w2) =
        ⟨provide_local_writing_feedback w2, 2⟩) := by
  constructor
  · unfold grade_writing_with_ai
    have hne : ¬ w = "" := by
      intro he
      exact hw (by rw [he]; rfl)
    have h1 : (w == "") = false := beq_eq_false_iff_ne.mpr hne
    have h2 : (pyStrip w == "") = false := beq_eq_false_iff_ne.mpr hw
    simp [h1, h2, htok]
  · intro tok2 orc2 w2 htok2 hw2 ha1 ha2
    unfold grade_writing_with_ai
    have hne : ¬ w2 = "" := by
      intro he
      exact hw2 (by rw [he]; rfl)
    have h1 : (w2 == "") = false := beq_eq_false_iff_ne.mpr hne
    have h2 : (pyStrip w2 == "") = false := beq_eq_false_iff_ne.mpr hw2
    simp [h1, h2, htok2, ha1, ha2]

/-- **C3 witness**: the amended behaviour at a concrete non-empty text with
no token configured. -/
theorem writing_no_token_witness :
    grade_writing_with_ai none orc0 (some "Hello world.") =
      ⟨hfNotConfiguredMsg, 0⟩ ∧
    (∀ (tok2 : Option String) (orc2 : WritingOracle) (w2 : String),
      hfTokenSet tok2 = true → pyStrip w2 ≠ "" →
      orc2.attempt1 = WriteAttempt.exn → orc2.attempt2 = WriteAttempt.exn →
      grade_writing_with_ai tok2 orc2 (some w2) =
        ⟨provide_local_writing_feedback w2, 2⟩) :=
  writing_no_token none orc0 "Hello world." rfl (by decide)

/-- The body of the speaking evaluator never lets an exception escape: every
branch yields `Except.ok`. -/
theorem speakingBody_ok (tok : Option String) (o : SpeakingOracle) (url : String) :
    ∃ p, speakingBody tok o url = Except.ok p := by
  unfold speakingBody
  cases o.fetch with
  | exn e => exact ⟨_, rfl⟩
  | resp status content =>
    dsimp only
    split
    · exact ⟨_, rfl⟩
    · cases transcriptOf tok o with
      | none => exact ⟨_, rfl⟩
      | some t =>
        dsimp only
        split
        · split
          · exact ⟨_, rfl⟩
          · exact ⟨_, rfl⟩
        · exact ⟨_, rfl⟩

/-- Shared helper: the speaking evaluator always produces `Except.ok`. -/
theorem speaking_result_ok (tok : Option String) (o : SpeakingOracle)
    (audio_url : Option String) :
    ∃ s, (grade_speaking_with_ai tok o audio_url).result = Except.ok s := by
  unfold grade_speaking_with_ai
  by_cases hb : isBlankRef audio_url = true
  · rw [if_pos hb]; exact ⟨unavailableMsg, rfl⟩
  · rw [if_neg hb]
    obtain ⟨⟨s, n⟩, hp⟩ := speakingBody_ok tok o (audio_url.getD "")
    dsimp only
    rw [hp]
    exact ⟨s, rfl⟩

/-- **C4.** For every configuration, oracle outcome and audio URL,
`grade_speaking_with_ai` returns a terminal feedback string: its result is
`Except.ok`, never an escaped exception. -/
theorem speaking_never_raises (tok : Option String) (o : SpeakingOracle)
    (audio_url : Option String) :
    ∃ s, (grade_speaking_with_ai tok o audio_url).result = Except.ok s :=
  speaking_result_ok tok o audio_url

/-- Speaking oracle whose audio fetch answers HTTP 404 and whose other
round trips fail. -/
def sorc404 : SpeakingOracle :=
  ⟨FetchOutcome.resp 404 [], TranscribeOutcome.exn, ⟨none, 0, "", Except.error "x"⟩⟩

/-- Sample audio URL. -/
def urlX : String := "http://example.com/audio.mp3"

/-- **C5 counterexample.** With the fetch returning HTTP 404, the evaluator
returns the inline download-error message, which is not the
`provide_local_speaking_feedback` document and does not request instructor
review (while that document does). -/
theorem speaking_fetch404_counterexample :
    (grade_speaking_with_ai none sorc404 (some urlX)).result =
      Except.ok (downloadErrMsg urlX 404) ∧
    downloadErrMsg urlX 404 ≠ provide_local_speaking_feedback urlX none ∧
    pyIn "instructor" (downloadErrMsg urlX 404) = false ∧
    pyIn "instructor" (provide_local_speaking_feedback urlX none) = true := by
  set_option maxRecDepth 8000 in decide

/-- **C5 (amended).** When the audio fetch returns a non-200 HTTP response
for a non-blank URL, `grade_speaking_with_ai` returns — without raising — the
terminal message naming the audio URL and the HTTP status and asking that
the link be verified, after exactly the one fetch request; the
`provide_local_speaking_feedback` document is not produced on this path. -/
theorem speaking_fetch_non200 (tok : Option String) (o : SpeakingOracle)
    (url : String) (st : Nat) (content : List Nat)
    (hurl : isBlankRef (some url) = false)
    (hf : o.fetch = FetchOutcome.resp st content) (hst : st ≠ 200) :
    grade_speaking_with_ai tok o (some url) =
      ⟨Except.ok (downloadErrMsg url st), 1⟩ := by
  have hs : (st != 200) = true := by
    simp only [bne_iff_ne, ne_eq]
    exact hst
  have hbody : speakingBody tok o url = Except.ok (downloadErrMsg url st, 1) := by
    unfold speakingBody
    rw [hf]
    dsimp only
    rw [if_pos hs]
  unfold grade_speaking_with_ai
  rw [if_neg (by rw [hurl]; simp : ¬ isBlankRef (some url) = true)]
  dsimp only
  simp only [Option.getD_some]
  rw [hbody]

/-- **C5 witness**: the amended statement at the concrete 404 oracle. -/
theorem speaking_fetch_non200_witness :
    grade_speaking_with_ai none sorc404 (some urlX) =
      ⟨Except.ok (downloadErrMsg urlX 404), 1⟩ :=
  speaking_fetch_non200 none sorc404 urlX 404 [] (by decide) rfl (by decide)

/-- **C9.** For an absent, empty, or whitespace-only audio reference,
`grade_speaking_with_ai` returns the `SPEAKING ASSESSMENT UNAVAILABLE`
terminal message and issues no network call. -/
theorem speaking_blank_ref (tok : Option String) (o : SpeakingOracle)
    (audio_url : Option String)
    (h : audio_url = none ∨ pyStrip (audio_url.getD "") = "") :
    grade_speaking_with_ai tok o audio_url = ⟨Except.ok unavailableMsg, 0⟩ := by
  have hb : isBlankRef audio_url = true := by
    rcases h with h | h
    · rw [h]; rfl
    · cases audio_url with
      | none => rfl
      | some s =>
        unfold isBlankRef
        have : (pyStrip s == "") = true := beq_iff_eq.mpr (by simpa using h)
        simp [this]
  unfold grade_speaking_with_ai
  rw [if_pos hb]

/-- **C9 witness**: a whitespace-only audio reference. -/
theorem speaking_blank_ref_witness :
    grade_speaking_with_ai none sorc404 (some "  ") = ⟨Except.ok unavailableMsg, 0⟩ :=
  speaking_blank_ref none sorc404 (some "  ") (Or.inr (by decide))

/-- **C10.** `send_email_report` returns `true` on every input, so
`submit_exam` always answers with the report-sent success message; the
email-failure branch is unreachable. -/
theorem submit_exam_always_success (tok : Option String)
    (worc : WritingOracle) (sorc : SpeakingOracle)
    (student_name student_email : Option String)
    (q1 q2 q3 q4 q5 : Option String)
    (r1 r2 r3 r4 r5 r6 r7 r8 r9 r10 : Option String)
    (writing_answer speaking_link : Option String) :
    (∀ (te : String) (sn se : Option String) (res : SubmitResults),
      send_email_report te sn se res = true) ∧
    (∃ r, submit_exam tok worc sorc student_name student_email
        q1 q2 q3 q4 q5 r1 r2 r3 r4 r5 r6 r7 r8 r9 r10
        writing_answer speaking_link = Except.ok r ∧
      r.1 = emailSentMsg) := by
  refine ⟨fun _ _ _ _ => rfl, ?_⟩
  obtain ⟨s, hs⟩ := speaking_result_ok tok sorc speaking_link
  unfold submit_exam
  rw [hs]
  exact ⟨_, rfl, rfl⟩

end ExamBackend
